import Mathlib

/-!
Shallow embedding of `src/spinup/algos/sac1_rnn/core.py`.

The file under verification is a set of graph-construction helpers for a
Soft Actor-Critic agent, written against TensorFlow 1.x.  Two layers are
embedded here:

* the numeric layer: the forward values computed by the squashing and
  likelihood functions, over the reals (`gaussian_likelihood`,
  `clip_but_pass_gradient`, the log-std rescaling of `mlp_gaussian_policy`,
  `apply_squashing_func`, the action rescaling of `mlp_actor_critic`);
  `tf.stop_gradient` is the identity on forward values and
  `tf.cast(b, tf.float32)` is `1.0` when `b` holds and `0.0` otherwise;

* the symbolic layer: the Python-level control flow of the functions that
  build graph pieces or inspect the global variable registry (`mlp`,
  `get_vars`, `count_vars`, the `action_space.high[0]` access of
  `mlp_actor_critic`, `sac1_dynamic_rnn`), with framework calls modelled as
  opaque graph-node constructors and Python exceptions as `Except`/`Option`
  failures.
-/

/-- `EPS = 1e-8` (line 5 of the source). -/
noncomputable def EPS : ℝ := 1e-8

/-- `gaussian_likelihood(x, mu, log_std)` (lines 30-32): the inputs have
batch shape `(N, D)`; `pre_sum` is computed elementwise and
`tf.reduce_sum(pre_sum, axis=1)` sums over the `D` axis, returning one real
per batch row. -/
noncomputable def gaussian_likelihood {N D : ℕ} (x mu log_std : Fin N → Fin D → ℝ) :
    Fin N → ℝ :=
  fun n => ∑ d, -0.5 * (((x n d - mu n d) / (Real.exp (log_std n d) + EPS)) ^ 2
      + 2 * log_std n d + Real.log (2 * Real.pi))

/-- `clip_but_pass_gradient(x, l, u)` (lines 34-37), forward value (one
scalar element): `clip_up = cast(x > u)`, `clip_low = cast(x < l)`, and the
result is `x + stop_gradient((u - x) * clip_up + (l - x) * clip_low)`, with
`stop_gradient` the identity on forward values. -/
noncomputable def clip_but_pass_gradient (x l u : ℝ) : ℝ :=
  let clip_up : ℝ := if x > u then 1 else 0
  let clip_low : ℝ := if x < l then 1 else 0
  x + ((u - x) * clip_up + (l - x) * clip_low)

/-- `LOG_STD_MAX = 2` (line 44). -/
def LOG_STD_MAX : ℝ := 2

/-- `LOG_STD_MIN = -20` (line 45). -/
def LOG_STD_MIN : ℝ := -20

/-- The log-std head of `mlp_gaussian_policy` (lines 71-72), one scalar
element: `t` is the affine (pre-activation) output of the final
`log_std` dense layer, `tanh` is its activation, and the result is
`LOG_STD_MIN + 0.5 * (LOG_STD_MAX - LOG_STD_MIN) * (log_std + 1)`. -/
noncomputable def mlp_gaussian_policy_log_std (t : ℝ) : ℝ :=
  LOG_STD_MIN + 0.5 * (LOG_STD_MAX - LOG_STD_MIN) * (Real.tanh t + 1)

/-- `apply_squashing_func(mu, pi, logp_pi)` (lines 79-84): `mu` and `pi`
have batch shape `(N, D)` and `logp_pi` shape `(N,)`; both action tensors
are squashed elementwise by `tanh`, and `logp_pi` is decremented by
`tf.reduce_sum(tf.log(clip_but_pass_gradient(1 - pi**2, l=0, u=1) + 1e-6), axis=1)`
where `pi` is the already-squashed sample. -/
noncomputable def apply_squashing_func {N D : ℕ} (mu pi : Fin N → Fin D → ℝ)
    (logp_pi : Fin N → ℝ) :
    (Fin N → Fin D → ℝ) × (Fin N → Fin D → ℝ) × (Fin N → ℝ) :=
  let muSq := fun n d => Real.tanh (mu n d)
  let piSq := fun n d => Real.tanh (pi n d)
  (muSq, piSq,
    fun n => logp_pi n
      - ∑ d, Real.log (clip_but_pass_gradient (1 - (piSq n d) ^ 2) 0 1 + 1e-6))

/-- The action outputs of `mlp_actor_critic` (lines 98-104): the raw policy
head outputs `mu`, `pi` (affine dense outputs, hence arbitrary reals) are
squashed by `apply_squashing_func` and then multiplied elementwise by
`action_scale = action_space.high[0]`. -/
noncomputable def mlp_actor_critic_actions {N D : ℕ} (action_scale : ℝ)
    (mu pi : Fin N → Fin D → ℝ) (logp_pi : Fin N → ℝ) :
    (Fin N → Fin D → ℝ) × (Fin N → Fin D → ℝ) :=
  let s := apply_squashing_func mu pi logp_pi
  (fun n d => s.1 n d * action_scale, fun n d => s.2.1 n d * action_scale)

/-- The per-row log-density of a diagonal Gaussian written in the textbook
form `-(x-mu)^2 / (2 sigma^2) - log sigma - 0.5 log(2 pi)`, except that the
standard deviation appearing in the quadratic term is `exp(log_std) + EPS`
rather than exactly `exp(log_std)` (the `- log sigma` term stays
`- log_std`).  This follows the wording of the specification and is to be
compared with `gaussian_likelihood`, which is translated from the source. -/
noncomputable def diag_gaussian_logdensity_eps {N D : ℕ}
    (x mu log_std : Fin N → Fin D → ℝ) : Fin N → ℝ :=
  fun n => ∑ d, (-((x n d - mu n d) ^ 2 / (2 * (Real.exp (log_std n d) + EPS) ^ 2))
      - log_std n d - 0.5 * Real.log (2 * Real.pi))

/- ### Symbolic layer -/

/-- Activation arguments passed to `tf.layers.dense` in this file:
`tf.tanh`, `tf.nn.relu`, or Python `None` (a linear layer). -/
inductive Act where
  | tanh
  | relu
  | none_
deriving DecidableEq

/-- Symbolic graph nodes built by the framework calls this file issues.
`gruOutputs`/`gruStates` are the two results of
`tf.nn.dynamic_rnn(GRUCell(numUnits), x, initial_state=init)`. -/
inductive TExpr where
  | input (id : Nat)
  | dense (x : TExpr) (units : Nat) (act : Act)
  | gruOutputs (numUnits : Nat) (x init : TExpr)
  | gruStates (numUnits : Nat) (x init : TExpr)
deriving DecidableEq

/-- A symbolic tensor: its static shape together with the graph node that
produces it. -/
structure Tensor where
  shape : List Nat
  expr : TExpr
deriving DecidableEq

/-- `tf.layers.dense(x, units, activation)`: a framework call; the output
shape replaces the last dimension by `units`. -/
def tf_layers_dense (x : Tensor) (units : Nat) (act : Act) : Tensor :=
  ⟨x.shape.dropLast ++ [units], .dense x.expr units act⟩

/-- `mlp(x, hidden_sizes, activation, output_activation)` (lines 18-21):
the loop issues one dense call per element of `hidden_sizes[:-1]`, then the
final statement evaluates `hidden_sizes[-1]`.  When `hidden_sizes` is
empty the loop body never runs (so no framework call is made) and
`hidden_sizes[-1]` raises `IndexError` — this code's own failure, modelled
as `Except.error`. -/
def mlp (x : Tensor) (hidden_sizes : List Nat) (activation output_activation : Act) :
    Except String Tensor :=
  let x1 := hidden_sizes.dropLast.foldl (fun t h => tf_layers_dense t h activation) x
  match hidden_sizes.getLast? with
  | none => .error "IndexError: tuple index out of range"
  | some last => .ok (tf_layers_dense x1 last output_activation)

/-- A variable in the framework's global registry, as seen by this file:
its name and its static shape (`var.shape.as_list()`). -/
structure TfVariable where
  name : List Char
  shape : List Nat
deriving DecidableEq

/-- `get_vars(scope)` (lines 23-24): reads `tf.global_variables()`, the
framework's implicit global variable registry, modelled as the explicit
argument `globalVariables`; Python `scope in x.name` is substring
containment. -/
def get_vars (globalVariables : List TfVariable) (scope : List Char) : List TfVariable :=
  globalVariables.filter (fun x => decide (scope <:+: x.name))

/-- `count_vars(scope)` (lines 26-28): sums `np.prod(var.shape.as_list())`
over the variables `get_vars(scope)` returns (`np.prod` of an empty shape
is 1, as is `List.prod`). -/
def count_vars (globalVariables : List TfVariable) (scope : List Char) : Nat :=
  ((get_vars globalVariables scope).map (fun var => var.shape.prod)).sum

/-- The kinds of Python values returned by the functions of this file: a
symbolic tensor, a Python list of framework variables, or a plain number. -/
inductive PyValue where
  | tensor (t : Tensor)
  | varList (vs : List TfVariable)
  | num (n : Nat)
deriving DecidableEq

/-- Whether a returned Python value is a symbolic tensor. -/
def PyValue.isSymbolicTensor : PyValue → Bool
  | .tensor _ => true
  | _ => false

/-- The value returned by `get_vars`, tagged with its Python kind: a list
of variables. -/
def get_vars_value (globalVariables : List TfVariable) (scope : List Char) : PyValue :=
  .varList (get_vars globalVariables scope)

/-- The value returned by `count_vars`, tagged with its Python kind: a
plain number. -/
def count_vars_value (globalVariables : List TfVariable) (scope : List Char) : PyValue :=
  .num (count_vars globalVariables scope)

/-- A Gym-style `action_space`: only its `high` array is read here. -/
structure ActionSpace where
  high : List ℝ

/-- The `action_scale = action_space.high[0]` access of `mlp_actor_critic`
(line 101): raises `AttributeError` when `action_space` is `None` (its
default), and `IndexError` when `high` is empty. -/
def mlp_actor_critic_action_scale (action_space : Option ActionSpace) : Except String ℝ :=
  match action_space with
  | none => .error "AttributeError: NoneType object has no attribute high"
  | some sp =>
    match sp.high.get? 0 with
    | none => .error "IndexError: index 0 is out of bounds"
    | some h => .ok h

/-- `sac1_dynamic_rnn(x, hc_0, hc_size=128)` (lines 123-136): the first
statement of the body rebinds `hc_size = int(hc_0.shape[1])` (raising when
`hc_0` has rank < 2, modelled by `Option`), then builds
`GRUCell(num_units=hc_size)` and runs `tf.nn.dynamic_rnn` on `x` with
initial state `hc_0`.  Output shapes are `N L H` and `N H` per the source
docstring. -/
def sac1_dynamic_rnn (x hc_0 : Tensor) (hc_size : Nat) : Option (Tensor × Tensor) :=
  match hc_0.shape.get? 1 with
  | none => none
  | some hc_size =>
    some (⟨x.shape.dropLast ++ [hc_size], .gruOutputs hc_size x.expr hc_0.expr⟩,
          ⟨hc_0.shape, .gruStates hc_size x.expr hc_0.expr⟩)

/-- Whether a Python-level computation raised an error of this code's own
(an exception thrown by this file's logic, as opposed to a framework
failure, which the symbolic layer does not model). -/
def raisesOwnError {α : Type} : Except String α → Bool
  | .error _ => true
  | .ok _ => false

/- ### Concrete inputs used by witnesses and counterexamples -/

/-- A concrete input tensor: a placeholder of shape `(None, 3)`, the
unknown batch dimension modelled as 0. -/
def xInput : Tensor := ⟨[0, 3], .input 0⟩

/-- A concrete registry entry: the kernel of a dense layer created under
variable scope `pi`. -/
def v_pi_kernel : TfVariable := ⟨"pi/dense/kernel:0".toList, [400, 300]⟩

/-- The constant-zero `(1, 1)` batch used to instantiate witnesses. -/
def zeroMat : Fin 1 → Fin 1 → ℝ := fun _ _ => 0

/-- The constant-zero length-1 vector used to instantiate witnesses. -/
def zeroVec : Fin 1 → ℝ := fun _ => 0

/- ### Shared lemmas about the numeric layer -/

theorem tanh_lt_one_real (x : ℝ) : Real.tanh x < 1 := by
  have hc : (0 : ℝ) < Real.cosh x := Real.cosh_pos x
  have h1 : Real.cosh x - Real.sinh x = Real.exp (-x) := Real.cosh_sub_sinh x
  have h2 : (0 : ℝ) < Real.exp (-x) := Real.exp_pos _
  rw [Real.tanh_eq_sinh_div_cosh, div_lt_one hc]
  linarith

theorem neg_one_lt_tanh_real (x : ℝ) : -1 < Real.tanh x := by
  have hc : (0 : ℝ) < Real.cosh x := Real.cosh_pos x
  have h1 : Real.cosh x + Real.sinh x = Real.exp x := Real.cosh_add_sinh x
  have h2 : (0 : ℝ) < Real.exp x := Real.exp_pos _
  rw [Real.tanh_eq_sinh_div_cosh, lt_div_iff₀ hc]
  linarith

theorem clip_eq_clamp (x l u : ℝ) (h : l ≤ u) :
    clip_but_pass_gradient x l u = min u (max l x) := by
  unfold clip_but_pass_gradient
  rcases lt_or_le u x with hu | hu
  · rw [if_pos hu, if_neg (by linarith), max_eq_right (by linarith : l ≤ x),
      min_eq_left (le_of_lt hu)]
    ring
  · rcases lt_or_le x l with hl | hl
    · rw [if_neg (not_lt.mpr hu), if_pos hl, max_eq_left (le_of_lt hl),
        min_eq_right h]
      ring
    · rw [if_neg (not_lt.mpr hu), if_neg (not_lt.mpr hl), max_eq_right hl,
        min_eq_right hu]
      ring

/- ### Claim theorems -/

/-- Claim C1: in `mlp_gaussian_policy`, for every real-valued output `t` of
the final `log_std` dense layer, the rescaled value
`LOG_STD_MIN + 0.5 * (LOG_STD_MAX - LOG_STD_MIN) * (tanh(t) + 1)` lies in
the fixed interval `[LOG_STD_MIN, LOG_STD_MAX] = [-20, 2]`. -/
theorem C1_log_std_within_bounds (t : ℝ) :
    LOG_STD_MIN ≤ mlp_gaussian_policy_log_std t ∧
    mlp_gaussian_policy_log_std t ≤ LOG_STD_MAX := by
  have h1 := tanh_lt_one_real t
  have h2 := neg_one_lt_tanh_real t
  unfold mlp_gaussian_policy_log_std LOG_STD_MIN LOG_STD_MAX
  constructor <;> nlinarith

/-- Claim C2: in `apply_squashing_func`, for every real `pi`, the argument
of the logarithm, `clip_but_pass_gradient(1 - pi**2, l=0, u=1) + 1e-6`, is
at least `1e-6` and at most `1 + 1e-6`, so the logarithm is well-defined
(its argument is strictly positive) and the returned `logp_pi` is a
well-defined (finite) real. -/
theorem C2_squash_log_argument_bounded (pi : ℝ) :
    1e-6 ≤ clip_but_pass_gradient (1 - pi ^ 2) 0 1 + 1e-6 ∧
    clip_but_pass_gradient (1 - pi ^ 2) 0 1 + 1e-6 ≤ 1 + 1e-6 := by
  rw [clip_eq_clamp (1 - pi ^ 2) 0 1 (by norm_num)]
  have h0 : (0 : ℝ) ≤ min 1 (max 0 (1 - pi ^ 2)) :=
    le_min (by norm_num) (le_max_left _ _)
  have h1 : min 1 (max 0 (1 - pi ^ 2)) ≤ 1 := min_le_left _ _
  constructor <;> linarith

/-- Claim C3: `apply_squashing_func` applies `tanh` to both `mu` and `pi`,
so every component of the returned `mu` and `pi` lies in the open interval
`(-1, 1)`, and the returned `logp_pi` equals the input `logp_pi` minus the
sum over the action dimension of
`log(clip_but_pass_gradient(1 - pi**2, 0, 1) + 1e-6)` taken at the
returned (squashed) `pi`. -/
theorem C3_apply_squashing_func_spec {N D : ℕ} (mu pi : Fin N → Fin D → ℝ)
    (logp_pi : Fin N → ℝ) (n : Fin N) (d : Fin D) :
    (-1 < (apply_squashing_func mu pi logp_pi).1 n d ∧
      (apply_squashing_func mu pi logp_pi).1 n d < 1) ∧
    (-1 < (apply_squashing_func mu pi logp_pi).2.1 n d ∧
      (apply_squashing_func mu pi logp_pi).2.1 n d < 1) ∧
    (apply_squashing_func mu pi logp_pi).2.2 n =
      logp_pi n - ∑ j, Real.log
        (clip_but_pass_gradient (1 - ((apply_squashing_func mu pi logp_pi).2.1 n j) ^ 2) 0 1
          + 1e-6) :=
  ⟨⟨neg_one_lt_tanh_real _, tanh_lt_one_real _⟩,
   ⟨neg_one_lt_tanh_real _, tanh_lt_one_real _⟩, rfl⟩

/-- Claim C4: in `mlp_actor_critic`, after squashing, `mu` and `pi` are
multiplied by `action_scale = action_space.high[0]`; assuming
`action_scale` is non-negative, every component of the returned `mu` and
`pi` lies within `[-action_scale, action_scale]`. -/
theorem C4_actions_within_range {N D : ℕ} (action_scale : ℝ)
    (h : 0 ≤ action_scale) (mu pi : Fin N → Fin D → ℝ) (logp_pi : Fin N → ℝ)
    (n : Fin N) (d : Fin D) :
    (-action_scale ≤ (mlp_actor_critic_actions action_scale mu pi logp_pi).1 n d ∧
      (mlp_actor_critic_actions action_scale mu pi logp_pi).1 n d ≤ action_scale) ∧
    (-action_scale ≤ (mlp_actor_critic_actions action_scale mu pi logp_pi).2 n d ∧
      (mlp_actor_critic_actions action_scale mu pi logp_pi).2 n d ≤ action_scale) := by
  have hm1 := tanh_lt_one_real (mu n d)
  have hm2 := neg_one_lt_tanh_real (mu n d)
  have hp1 := tanh_lt_one_real (pi n d)
  have hp2 := neg_one_lt_tanh_real (pi n d)
  unfold mlp_actor_critic_actions apply_squashing_func
  refine ⟨⟨?_, ?_⟩, ⟨?_, ?_⟩⟩ <;> nlinarith

/-- Witness for C4 at `action_scale = 1` on the zero batch. -/
theorem C4_actions_within_range_witness :
    (0 : ℝ) ≤ 1 ∧
    ((-(1 : ℝ) ≤ (mlp_actor_critic_actions 1 zeroMat zeroMat zeroVec).1 0 0 ∧
      (mlp_actor_critic_actions 1 zeroMat zeroMat zeroVec).1 0 0 ≤ 1) ∧
     (-(1 : ℝ) ≤ (mlp_actor_critic_actions 1 zeroMat zeroMat zeroVec).2 0 0 ∧
      (mlp_actor_critic_actions 1 zeroMat zeroMat zeroVec).2 0 0 ≤ 1)) :=
  ⟨by norm_num, C4_actions_within_range 1 (by norm_num) zeroMat zeroMat zeroVec 0 0⟩

/-- Counterexample to claim C5: `mlp` with an empty `hidden_sizes` fails
in this code's own logic — Python raises `IndexError` evaluating
`hidden_sizes[-1]` before the first framework call (the loop body never
ran) — and `mlp_actor_critic` with `action_space = None` fails in its own
logic with `AttributeError` at `action_space.high[0]`. -/
theorem C5_counterexample :
    mlp xInput [] .tanh .none_ = .error "IndexError: tuple index out of range" ∧
    mlp_actor_critic_action_scale none =
      .error "AttributeError: NoneType object has no attribute high" :=
  ⟨rfl, rfl⟩

/-- Claim C5 as amended: `mlp` raises an `IndexError` of its own exactly
when `hidden_sizes` is empty, and `mlp_actor_critic` raises an
`AttributeError` of its own when `action_space` is `None` (and an
`IndexError` when `high` is empty); for nonempty `hidden_sizes` and an
`action_space` with nonempty `high`, no error originates in this code's
own logic. -/
theorem C5_amended_own_errors (x : Tensor) (hidden_sizes : List Nat)
    (activation output_activation : Act) (sp : ActionSpace)
    (h : hidden_sizes ≠ []) (hsp : sp.high ≠ []) :
    raisesOwnError (mlp x hidden_sizes activation output_activation) = false ∧
    raisesOwnError (mlp_actor_critic_action_scale none) = true ∧
    raisesOwnError (mlp_actor_critic_action_scale (some sp)) = false := by
  refine ⟨?_, rfl, ?_⟩
  · unfold mlp
    rw [List.getLast?_eq_getLast_of_ne_nil h]
    rfl
  · obtain ⟨high⟩ := sp
    cases high with
    | nil => exact absurd rfl hsp
    | cons a t => rfl

/-- Witness for the amended C5 on a nonempty `hidden_sizes` and a
one-element `high`. -/
theorem C5_amended_own_errors_witness :
    (([32] : List Nat) ≠ [] ∧ ([(1 : ℝ)] : List ℝ) ≠ []) ∧
    (raisesOwnError (mlp xInput [32] .tanh .none_) = false ∧
     raisesOwnError (mlp_actor_critic_action_scale none) = true ∧
     raisesOwnError (mlp_actor_critic_action_scale (some ⟨[(1 : ℝ)]⟩)) = false) :=
  ⟨⟨by decide, by simp⟩,
   C5_amended_own_errors xInput [32] .tanh .none_ ⟨[(1 : ℝ)]⟩ (by decide) (by simp)⟩

/-- Counterexample to claim C6: `get_vars` and `count_vars` do not depend
only on their `scope` argument — with the same scope `"pi"` but two
different states of the framework's global variable registry (empty, and
holding one `pi`-scoped 400 by 300 kernel), they return different
results. -/
theorem C6_counterexample :
    get_vars [v_pi_kernel] "pi".toList ≠ get_vars [] "pi".toList ∧
    count_vars [v_pi_kernel] "pi".toList ≠ count_vars [] "pi".toList := by
  constructor <;> decide

/-- Claim C6 as amended: the numeric functions of the file are pure, but
`get_vars(scope)` and `count_vars(scope)` read the framework's global
variable registry in addition to `scope`; given the registry state they
are deterministic: `get_vars` returns exactly the registry variables whose
name contains `scope` as a substring, and `count_vars` sums the products
of those variables' shape dimensions. -/
theorem C6_amended_registry_determinism (globalVariables : List TfVariable)
    (scope : List Char) (v : TfVariable) :
    (v ∈ get_vars globalVariables scope ↔
      v ∈ globalVariables ∧ scope <:+: v.name) ∧
    count_vars globalVariables scope =
      ((globalVariables.filter (fun w => decide (scope <:+: w.name))).map
        (fun w => w.shape.prod)).sum := by
  refine ⟨?_, rfl⟩
  simp [get_vars, List.mem_filter]

/-- Counterexample to claim C7: at the concrete registry holding one
`pi`-scoped kernel and scope `"pi"`, the value returned by `get_vars` is a
Python list of variables and the value returned by `count_vars` is a plain
number — neither is a symbolic tensor. -/
theorem C7_counterexample :
    (get_vars_value [v_pi_kernel] "pi".toList).isSymbolicTensor = false ∧
    (count_vars_value [v_pi_kernel] "pi".toList).isSymbolicTensor = false :=
  ⟨rfl, rfl⟩

/-- Claim C7 as amended: the graph-construction functions return symbolic
tensors, but for every registry state and scope string, `get_vars` returns
a list of variables and `count_vars` a plain number, and neither returned
value is a symbolic tensor. -/
theorem C7_amended_return_kinds (globalVariables : List TfVariable)
    (scope : List Char) :
    get_vars_value globalVariables scope =
      .varList (get_vars globalVariables scope) ∧
    count_vars_value globalVariables scope =
      .num (count_vars globalVariables scope) ∧
    (get_vars_value globalVariables scope).isSymbolicTensor = false ∧
    (count_vars_value globalVariables scope).isSymbolicTensor = false :=
  ⟨rfl, rfl, rfl, rfl⟩

/-- Claim C8: for every real `x` and all bounds `l ≤ u`, the forward value
of `clip_but_pass_gradient(x, l, u)` equals the clamp `min(u, max(l, x))`:
it equals `u` when `x > u`, equals `l` when `x < l`, and equals `x` when
`l ≤ x ≤ u`. -/
theorem C8_clip_forward_is_clamp (x l u : ℝ) (h : l ≤ u) :
    clip_but_pass_gradient x l u = min u (max l x) ∧
    (u < x → clip_but_pass_gradient x l u = u) ∧
    (x < l → clip_but_pass_gradient x l u = l) ∧
    (l ≤ x → x ≤ u → clip_but_pass_gradient x l u = x) := by
  have hc := clip_eq_clamp x l u h
  refine ⟨hc, ?_, ?_, ?_⟩
  · intro hx
    rw [hc, max_eq_right (le_of_lt (lt_of_le_of_lt h hx)), min_eq_left (le_of_lt hx)]
  · intro hx
    rw [hc, max_eq_left (le_of_lt hx), min_eq_right h]
  · intro h1 h2
    rw [hc, max_eq_right h1, min_eq_right h2]

/-- Witness for C8 at `x = 5`, `l = 0`, `u = 1`. -/
theorem C8_clip_forward_is_clamp_witness :
    (0 : ℝ) ≤ 1 ∧
    (clip_but_pass_gradient 5 0 1 = min 1 (max 0 5) ∧
     ((1 : ℝ) < 5 → clip_but_pass_gradient 5 0 1 = 1) ∧
     ((5 : ℝ) < 0 → clip_but_pass_gradient 5 0 1 = 0) ∧
     ((0 : ℝ) ≤ 5 → (5 : ℝ) ≤ 1 → clip_but_pass_gradient 5 0 1 = 5)) :=
  ⟨by norm_num, C8_clip_forward_is_clamp 5 0 1 (by norm_num)⟩

/-- Claim C9: `gaussian_likelihood` returns, for each batch row, the sum
over the `D` components of
`-0.5 * (((x - mu) / (exp(log_std) + EPS))^2 + 2*log_std + log(2*pi))`,
which is the diagonal-Gaussian log-density in which the standard deviation
of the quadratic term is `exp(log_std) + EPS` rather than exactly
`exp(log_std)`. -/
theorem C9_gaussian_likelihood_is_eps_density {N D : ℕ}
    (x mu log_std : Fin N → Fin D → ℝ) :
    gaussian_likelihood x mu log_std = diag_gaussian_logdensity_eps x mu log_std := by
  funext n
  unfold gaussian_likelihood diag_gaussian_logdensity_eps
  refine Finset.sum_congr rfl ?_
  intro d _
  have hE : (0 : ℝ) < EPS := by unfold EPS; norm_num
  have hx := Real.exp_pos (log_std n d)
  have hσ : Real.exp (log_std n d) + EPS ≠ 0 := by positivity
  field_simp
  ring

/-- Claim C10: the `hc_size` parameter of `sac1_dynamic_rnn` has no effect
on its result — it is unconditionally overwritten by `int(hc_0.shape[1])`
before the GRU cell is built, so any two values of `hc_size` give the same
outputs and states. -/
theorem C10_hc_size_has_no_effect (x hc_0 : Tensor) (hcSizeA hcSizeB : Nat) :
    sac1_dynamic_rnn x hc_0 hcSizeA = sac1_dynamic_rnn x hc_0 hcSizeB := rfl
